import Mathlib

/-!
Verification of the iris classification HTTP service (src/app.py).

Embedding conventions:
* Python floats are modelled as exact rationals (the comparisons in the
  source are ordinary numeric comparisons and every constant in the source
  is decimal, hence exactly representable). Decimal constants of the
  source are written as fractions: 4.5 = 9/2, 2.5 = 5/2, 0.1 = 1/10.
* The external classifier `model.predict` is a black-box parameter of type
  `Classifier`; it receives the (count, 4) matrix as a list of rows and
  returns either a list of integer class ids or an error (a raised
  exception inside the call).
* A handler body that raises `HTTPException(status_code, detail)` is
  modelled as `Except HTTPException r`; the 422 rejection produced by the
  framework when request-body validation fails is modelled in the
  `handle_*` wrappers, which run pydantic validation before the handler
  body, exactly as FastAPI does.
* The process-wide random-generator state used by `random.uniform` is
  modelled as an explicit stream of unit-interval draws threaded through
  `predict_random`.
-/

namespace IrisApp

/-- MD5 hexdigest of "IrisAPI_v1.0.0_Hackathon", computed once at import
time in the source (line 40); here inlined as the resulting constant. -/
def CODE_SIGNATURE : String := "dfddca91bf66ddd02d0ab3ce8e0301e8"

/-- Data model for iris flower features (class IrisFeatures, lines 43-72). -/
structure IrisFeatures where
  sepal_length : ℚ
  sepal_width : ℚ
  petal_length : ℚ
  petal_width : ℚ
deriving DecidableEq, Repr

/-- Acceptance test of one pydantic field declared `Field(..., gt=0, le=ub)`
together with the `validate_positive_values` validator (which re-checks
`value <= 0`): the value passes iff `0 < v` and `v ≤ ub`. -/
def fieldOk (ub v : ℚ) : Bool :=
  decide (0 < v) && decide (v ≤ ub)

/-- Construction of an `IrisFeatures` record from four raw numbers:
pydantic accepts exactly when every field passes its bound checks
(sepal_length ≤ 8.0, sepal_width ≤ 4.5, petal_length ≤ 7.0,
petal_width ≤ 2.5, all strictly positive); otherwise a validation
error is raised, modelled as `none`. -/
def mkIrisFeatures (sl sw pl pw : ℚ) : Option IrisFeatures :=
  if fieldOk 8 sl && fieldOk (9/2) sw && fieldOk 7 pl && fieldOk (5/2) pw then
    some ⟨sl, sw, pl, pw⟩
  else
    none

theorem fieldOk_iff (ub v : ℚ) : fieldOk ub v = true ↔ 0 < v ∧ v ≤ ub := by
  simp [fieldOk]

theorem mkIrisFeatures_isSome_iff (sl sw pl pw : ℚ) :
    (mkIrisFeatures sl sw pl pw).isSome = true ↔
      (0 < sl ∧ sl ≤ 8) ∧ (0 < sw ∧ sw ≤ 9/2) ∧
      (0 < pl ∧ pl ≤ 7) ∧ (0 < pw ∧ pw ≤ 5/2) := by
  rw [mkIrisFeatures]
  split
  · rename_i h
    simp only [Bool.and_eq_true, fieldOk_iff] at h
    simp only [Option.isSome_some, true_iff]
    tauto
  · rename_i h
    simp only [Bool.and_eq_true, fieldOk_iff] at h
    simp only [Option.isSome_none, Bool.false_eq_true, false_iff]
    tauto

theorem mkIrisFeatures_eq_some (sl sw pl pw : ℚ)
    (h1 : 0 < sl) (h2 : sl ≤ 8) (h3 : 0 < sw) (h4 : sw ≤ 9/2)
    (h5 : 0 < pl) (h6 : pl ≤ 7) (h7 : 0 < pw) (h8 : pw ≤ 5/2) :
    mkIrisFeatures sl sw pl pw = some ⟨sl, sw, pl, pw⟩ := by
  rw [mkIrisFeatures]
  split
  · rfl
  · rename_i h
    exact absurd (by simp only [Bool.and_eq_true, fieldOk_iff]; tauto) h

/-- C1: Feature Record validation accepts a 4-tuple of floats if and only
if each field is strictly greater than 0 and at most its upper bound
(sepal_length ≤ 8.0, sepal_width ≤ 4.5, petal_length ≤ 7.0,
petal_width ≤ 2.5); for every field, a value of exactly 0 (or below, here
-1) is rejected, a value exactly equal to the upper bound is accepted, and
a value one unit above the upper bound is rejected. -/
theorem C1_feature_validation :
    (∀ sl sw pl pw : ℚ,
      (mkIrisFeatures sl sw pl pw).isSome = true ↔
        (0 < sl ∧ sl ≤ 8) ∧ (0 < sw ∧ sw ≤ 9/2) ∧
        (0 < pl ∧ pl ≤ 7) ∧ (0 < pw ∧ pw ≤ 5/2)) ∧
    (mkIrisFeatures 0 1 1 1 = none ∧ mkIrisFeatures 1 0 1 1 = none ∧
      mkIrisFeatures 1 1 0 1 = none ∧ mkIrisFeatures 1 1 1 0 = none) ∧
    (mkIrisFeatures (-1) 1 1 1 = none ∧ mkIrisFeatures 1 (-1) 1 1 = none ∧
      mkIrisFeatures 1 1 (-1) 1 = none ∧ mkIrisFeatures 1 1 1 (-1) = none) ∧
    mkIrisFeatures 8 (9/2) 7 (5/2) = some ⟨8, 9/2, 7, 5/2⟩ ∧
    (mkIrisFeatures 9 1 1 1 = none ∧ mkIrisFeatures 1 (11/2) 1 1 = none ∧
      mkIrisFeatures 1 1 8 1 = none ∧ mkIrisFeatures 1 1 1 (7/2) = none) :=
  ⟨mkIrisFeatures_isSome_iff,
    by constructor <;> try constructor <;> try constructor
       all_goals with_unfolding_all rfl,
    by constructor <;> try constructor <;> try constructor
       all_goals with_unfolding_all rfl,
    by with_unfolding_all rfl,
    by constructor <;> try constructor <;> try constructor
       all_goals with_unfolding_all rfl⟩

/-- Exception raised by an endpoint body and turned by FastAPI into an
HTTP error response, `HTTPException(status_code, detail)`. -/
structure HTTPException where
  status_code : ℕ
  detail : String
deriving DecidableEq, Repr

/-- The external classifier `model.predict`: a black box mapping a
(count, 4) matrix, given as a list of rows, to a list of integer class
ids; a raised exception inside the call is an `error` carrying the
message that the except-block interpolates into the 500 detail. -/
abbrev Classifier : Type := List (List ℚ) → Except String (List ℤ)

/-- Row layout used by every endpoint when building `input_data`
(lines 104, 133-136, 170): the fixed column order
[sepal_length, sepal_width, petal_length, petal_width]. -/
def toRow (f : IrisFeatures) : List ℚ :=
  [f.sepal_length, f.sepal_width, f.petal_length, f.petal_width]

/-- Mapping for model predictions (line 85):
`prediction_map = \x7b0: "setosa", 1: "versicolor", 2: "virginica"\x7d`.
A key outside 0, 1, 2 has no entry and indexing raises KeyError,
modelled as `none`. -/
def prediction_map (k : ℤ) : Option String :=
  if k = 0 then some "setosa"
  else if k = 1 then some "versicolor"
  else if k = 2 then some "virginica"
  else none

/-- Total version of the label lookup, used to state order preservation;
on the keys 0, 1, 2 it agrees with `prediction_map`. -/
def labelOf (k : ℤ) : String :=
  (prediction_map k).getD ""

/-- The list comprehension of line 141,
`[prediction_map[int(pred)] for pred in predictions]`: evaluated left to
right, it raises KeyError at the first class id missing from the map;
the error carries that offending id. -/
def lookupLabels : List ℤ → Except ℤ (List String)
  | [] => .ok []
  | k :: ks =>
    match prediction_map k with
    | none => .error k
    | some s =>
      match lookupLabels ks with
      | .error j => .error j
      | .ok rest => .ok (s :: rest)

/-- Response of POST /predict on success (lines 108-111). -/
structure PredictResponse where
  prediction : String
  code_signature : String
deriving DecidableEq, Repr

/-- Response of POST /predict_batch on success (lines 140-143). -/
structure BatchResponse where
  predictions : List String
  code_signature : String
deriving DecidableEq, Repr

/-- Endpoint body of POST /predict (lines 88-114): build the one-row
matrix, call the classifier, map the first returned id through
`prediction_map`; any exception in the try block (classifier failure,
missing row, missing key) becomes an HTTP 500 whose detail interpolates
the exception text. -/
def predict (clf : Classifier) (features : IrisFeatures) :
    Except HTTPException PredictResponse :=
  match clf [toRow features] with
  | .error e => .error ⟨500, "Prediction failed: " ++ e⟩
  | .ok prediction =>
    match prediction.head? with
    | none => .error ⟨500, "Prediction failed: index 0 is out of bounds"⟩
    | some k =>
      match prediction_map k with
      | none => .error ⟨500, "Prediction failed: " ++ toString k⟩
      | some label => .ok ⟨label, CODE_SIGNATURE⟩

/-- Endpoint body of POST /predict_batch (lines 117-146): build the
(count, 4) matrix from the records in order, call the classifier once,
map every returned id through `prediction_map`; any exception becomes an
HTTP 500. -/
def predict_batch (clf : Classifier) (batch : List IrisFeatures) :
    Except HTTPException BatchResponse :=
  match clf (batch.map toRow) with
  | .error e => .error ⟨500, "Batch prediction failed: " ++ e⟩
  | .ok predictions =>
    match lookupLabels predictions with
    | .error j => .error ⟨500, "Batch prediction failed: " ++ toString j⟩
    | .ok labels => .ok ⟨labels, CODE_SIGNATURE⟩

theorem prediction_map_mem_labels {k : ℤ} {s : String}
    (h : prediction_map k = some s) :
    s = "setosa" ∨ s = "versicolor" ∨ s = "virginica" := by
  unfold prediction_map at h
  split at h
  · exact Or.inl (Option.some.inj h).symm
  · split at h
    · exact Or.inr (Or.inl (Option.some.inj h).symm)
    · split at h
      · exact Or.inr (Or.inr (Option.some.inj h).symm)
      · exact absurd h (by simp)

theorem prediction_map_eq_some {k : ℤ} (h : k = 0 ∨ k = 1 ∨ k = 2) :
    prediction_map k = some (labelOf k) := by
  rcases h with rfl | rfl | rfl <;> rfl

theorem prediction_map_eq_none {k : ℤ} (h : ¬(k = 0 ∨ k = 1 ∨ k = 2)) :
    prediction_map k = none := by
  push_neg at h
  unfold prediction_map
  simp [h.1, h.2.1, h.2.2]

theorem lookupLabels_ok (ids : List ℤ)
    (h : ∀ k ∈ ids, k = 0 ∨ k = 1 ∨ k = 2) :
    lookupLabels ids = .ok (ids.map labelOf) := by
  induction ids with
  | nil => rfl
  | cons k ks ih =>
    have hmap := prediction_map_eq_some (h k (List.mem_cons_self k ks))
    have ihh := ih (fun j hj => h j (List.mem_cons_of_mem k hj))
    simp only [lookupLabels, hmap, ihh, List.map_cons]

theorem lookupLabels_err (ids : List ℤ) (k : ℤ) (hk : k ∈ ids)
    (h : prediction_map k = none) :
    ∃ j, lookupLabels ids = .error j ∧ prediction_map j = none := by
  induction ids with
  | nil => cases hk
  | cons a as ih =>
    rcases List.mem_cons.mp hk with rfl | hmem
    · exact ⟨k, by simp only [lookupLabels, h], h⟩
    · cases hpa : prediction_map a with
      | none => exact ⟨a, by simp only [lookupLabels, hpa], hpa⟩
      | some s =>
        obtain ⟨j, hj, hjn⟩ := ih hmem
        exact ⟨j, by simp only [lookupLabels, hpa, hj], hjn⟩

/-- C2: for every batch of N Feature Records, if the external classifier
returns one class id per input row with each id in 0, 1, 2, then
`predict_batch` succeeds with exactly N labels, and the label at index i
is the Label Mapper image of the id the classifier produced for input
row i: the output list is the elementwise image of the classifier output,
so input order is preserved end to end. -/
theorem C2_batch_order_preserved (clf : Classifier)
    (batch : List IrisFeatures) (ids : List ℤ)
    (hrun : clf (batch.map toRow) = .ok ids)
    (hlen : ids.length = batch.length)
    (hrange : ∀ k ∈ ids, k = 0 ∨ k = 1 ∨ k = 2) :
    predict_batch clf batch = .ok ⟨ids.map labelOf, CODE_SIGNATURE⟩ ∧
    (ids.map labelOf).length = batch.length ∧
    ∀ i (hi : i < ids.length),
      prediction_map (ids.get ⟨i, hi⟩) =
        some ((ids.map labelOf).get ⟨i, by simpa using hi⟩) := by
  refine ⟨?_, by simpa using hlen, ?_⟩
  · unfold predict_batch
    simp only [hrun, lookupLabels_ok ids hrange]
  · intro i hi
    have hmem : ids.get ⟨i, hi⟩ ∈ ids := List.get_mem ids i hi
    simpa using prediction_map_eq_some (hrange _ hmem)

/-- C3: whenever the predict endpoint succeeds, the returned prediction
is one of the three Label Mapper entries "setosa", "versicolor",
"virginica"; no other label string is possible. -/
theorem C3_prediction_in_label_set (clf : Classifier)
    (features : IrisFeatures) (r : PredictResponse)
    (h : predict clf features = .ok r) :
    r.prediction = "setosa" ∨ r.prediction = "versicolor" ∨
      r.prediction = "virginica" := by
  unfold predict at h
  split at h
  · cases h
  · split at h
    · cases h
    · split at h
      · cases h
      · rename_i label hm
        cases h
        exact prediction_map_mem_labels hm

/-- C4: a classifier output class id outside 0, 1, 2 makes both predict
endpoints fail with an HTTP 500 inference error whose detail interpolates
the offending KeyError; the id is never silently mapped to a default
label. -/
theorem C4_out_of_range_class_id_fails :
    (∀ (clf : Classifier) (features : IrisFeatures) (preds : List ℤ) (k : ℤ),
      clf [toRow features] = .ok preds → preds.head? = some k →
      ¬(k = 0 ∨ k = 1 ∨ k = 2) →
      predict clf features =
        .error ⟨500, "Prediction failed: " ++ toString k⟩) ∧
    (∀ (clf : Classifier) (batch : List IrisFeatures) (ids : List ℤ) (k : ℤ),
      clf (batch.map toRow) = .ok ids → k ∈ ids →
      ¬(k = 0 ∨ k = 1 ∨ k = 2) →
      ∃ j, prediction_map j = none ∧
        predict_batch clf batch =
          .error ⟨500, "Batch prediction failed: " ++ toString j⟩) := by
  constructor
  · intro clf features preds k hrun hhead hk
    unfold predict
    simp only [hrun, hhead, prediction_map_eq_none hk]
  · intro clf batch ids k hrun hmem hk
    obtain ⟨j, hj, hjn⟩ := lookupLabels_err ids k hmem (prediction_map_eq_none hk)
    refine ⟨j, hjn, ?_⟩
    unfold predict_batch
    simp only [hrun, hj]

/-- Test double classifier labelling every row with class id 0. -/
def clfZero : Classifier := fun rows => .ok (rows.map fun _ => 0)

/-- Test double classifier returning the out-of-range class id 3 for
every row. -/
def clfThree : Classifier := fun rows => .ok (rows.map fun _ => 3)

/-- Concrete record used by the witnesses; every field is well inside its
bound. -/
def sampleFeatures : IrisFeatures := ⟨5, 3, 1, 1⟩

theorem C2_batch_order_preserved_witness :
    predict_batch clfZero [sampleFeatures, sampleFeatures] =
      .ok ⟨([0, 0] : List ℤ).map labelOf, CODE_SIGNATURE⟩ ∧
    (([0, 0] : List ℤ).map labelOf).length =
      ([sampleFeatures, sampleFeatures] : List IrisFeatures).length ∧
    ∀ i (hi : i < ([0, 0] : List ℤ).length),
      prediction_map (([0, 0] : List ℤ).get ⟨i, hi⟩) =
        some ((([0, 0] : List ℤ).map labelOf).get ⟨i, by simpa using hi⟩) :=
  C2_batch_order_preserved clfZero [sampleFeatures, sampleFeatures] [0, 0]
    rfl rfl (by decide)

theorem C3_prediction_in_label_set_witness :
    (⟨"setosa", CODE_SIGNATURE⟩ : PredictResponse).prediction = "setosa" ∨
    (⟨"setosa", CODE_SIGNATURE⟩ : PredictResponse).prediction = "versicolor" ∨
    (⟨"setosa", CODE_SIGNATURE⟩ : PredictResponse).prediction = "virginica" :=
  C3_prediction_in_label_set clfZero sampleFeatures ⟨"setosa", CODE_SIGNATURE⟩ rfl

theorem C4_out_of_range_class_id_fails_witness :
    predict clfThree sampleFeatures =
      .error ⟨500, "Prediction failed: " ++ toString (3 : ℤ)⟩ :=
  C4_out_of_range_class_id_fails.1 clfThree sampleFeatures [3] 3
    rfl rfl (by decide)

/-- Process-wide state of the `random` module, modelled as the stream of
unit-interval draws the generator will produce next; each call to
`random.uniform` consumes one draw. -/
structure RandomState where
  draws : List ℚ
deriving DecidableEq, Repr

/-- Python `random.uniform(a, b)`: returns `a + (b - a) * u` for the next
unit draw u of the generator and advances the generator state; on an
exhausted stream it returns the left endpoint (the concrete states used
below are never exhausted). -/
def randomUniform (a b : ℚ) (s : RandomState) : ℚ × RandomState :=
  match s.draws with
  | [] => (a, s)
  | u :: rest => (a + (b - a) * u, ⟨rest⟩)

/-- The four draws of lines 160-163, in source order and with the literal
sub-ranges of the source: sepal_length from [4.0, 8.0], sepal_width from
[2.0, 4.5], petal_length from [1.0, 7.0], petal_width from [0.1, 2.5]. -/
def drawRandomFeatures (s : RandomState) : (ℚ × ℚ × ℚ × ℚ) × RandomState :=
  let r1 := randomUniform 4 8 s
  let r2 := randomUniform 2 (9/2) r1.2
  let r3 := randomUniform 1 7 r2.2
  let r4 := randomUniform (1/10) (5/2) r3.2
  ((r1.1, r2.1, r3.1, r4.1), r4.2)

/-- Validity of the tuple drawn from state `s` under the Feature Record
validation contract. -/
def drawnTupleValid (s : RandomState) : Bool :=
  (mkIrisFeatures (drawRandomFeatures s).1.1 (drawRandomFeatures s).1.2.1
    (drawRandomFeatures s).1.2.2.1 (drawRandomFeatures s).1.2.2.2).isSome

/-- Error raised when the record constructed inside predict_random fails
validation: the pydantic exception is caught by the same except-block of
lines 179-181 and surfaced as a 500. -/
def randomValidationFailure : HTTPException :=
  ⟨500, "Random prediction failed: validation error"⟩

/-- Response of GET /predict_random on success (lines 174-178). -/
structure RandomResponse where
  random_features : IrisFeatures
  prediction : String
  code_signature : String
deriving DecidableEq, Repr

/-- Endpoint body of GET /predict_random (lines 149-181): draw the four
features, construct the record (a pydantic failure here would be caught
by the except-block and become a 500), build the one-row matrix,
classify, map the first returned id. The random module state is threaded
explicitly. -/
def predict_random (clf : Classifier) (s : RandomState) :
    Except HTTPException RandomResponse × RandomState :=
  let d := drawRandomFeatures s
  match mkIrisFeatures d.1.1 d.1.2.1 d.1.2.2.1 d.1.2.2.2 with
  | none => (.error randomValidationFailure, d.2)
  | some f =>
    match clf [toRow f] with
    | .error e => (.error ⟨500, "Random prediction failed: " ++ e⟩, d.2)
    | .ok prediction =>
      match prediction.head? with
      | none =>
        (.error ⟨500, "Random prediction failed: index 0 is out of bounds"⟩, d.2)
      | some k =>
        match prediction_map k with
        | none => (.error ⟨500, "Random prediction failed: " ++ toString k⟩, d.2)
        | some label => (.ok ⟨f, label, CODE_SIGNATURE⟩, d.2)

/-- Unit-interval draw streams. -/
def unitDraws (s : RandomState) : Prop :=
  ∀ u ∈ s.draws, 0 ≤ u ∧ u ≤ 1

theorem randomUniform_mem (a b : ℚ) (s : RandomState) (hab : a ≤ b)
    (hs : unitDraws s) :
    a ≤ (randomUniform a b s).1 ∧ (randomUniform a b s).1 ≤ b := by
  rcases s with ⟨draws⟩
  cases draws with
  | nil => exact ⟨le_refl a, hab⟩
  | cons u rest =>
    have hu := hs u (List.mem_cons_self u rest)
    unfold randomUniform
    dsimp only
    constructor
    · nlinarith [hu.1, hu.2]
    · nlinarith [hu.1, hu.2]

theorem randomUniform_unit (a b : ℚ) (s : RandomState) (hs : unitDraws s) :
    unitDraws (randomUniform a b s).2 := by
  rcases s with ⟨draws⟩
  cases draws with
  | nil => exact hs
  | cons u rest => exact fun v hv => hs v (List.mem_cons_of_mem u hv)

/-- C5: for every outcome of the random draws — sepal_length in
[4.0, 8.0], sepal_width in [2.0, 4.5], petal_length in [1.0, 7.0],
petal_width in [0.1, 2.5] — the generated 4-tuple satisfies the Feature
Record validation bounds, so constructing the record never raises a
validation failure: the generator output ranges are a subset of the
validation bounds. -/
theorem C5_random_within_bounds :
    (∀ a b c d : ℚ,
      4 ≤ a → a ≤ 8 → 2 ≤ b → b ≤ 9/2 → 1 ≤ c → c ≤ 7 →
      1/10 ≤ d → d ≤ 5/2 →
      mkIrisFeatures a b c d = some ⟨a, b, c, d⟩) ∧
    (∀ s : RandomState, unitDraws s → drawnTupleValid s = true) := by
  constructor
  · intro a b c d h1 h2 h3 h4 h5 h6 h7 h8
    exact mkIrisFeatures_eq_some a b c d (by linarith) h2 (by linarith) h4
      (by linarith) h6 (by linarith) h8
  · intro s hs
    have h1 := randomUniform_mem 4 8 s (by norm_num) hs
    have hs1 := randomUniform_unit 4 8 s hs
    have h2 := randomUniform_mem 2 (9/2) _ (by norm_num) hs1
    have hs2 := randomUniform_unit 2 (9/2) _ hs1
    have h3 := randomUniform_mem 1 7 _ (by norm_num) hs2
    have hs3 := randomUniform_unit 1 7 _ hs2
    have h4 := randomUniform_mem (1/10) (5/2) _ (by norm_num) hs3
    unfold drawnTupleValid drawRandomFeatures
    rw [mkIrisFeatures_eq_some _ _ _ _ (by linarith [h1.1]) h1.2
      (by linarith [h2.1]) h2.2 (by linarith [h3.1]) h3.2
      (by linarith [h4.1]) h4.2]
    rfl

theorem C5_random_within_bounds_witness :
    mkIrisFeatures 4 2 1 (1/10) = some ⟨4, 2, 1, 1/10⟩ ∧
    drawnTupleValid ⟨[0, 0, 0, 0]⟩ = true :=
  ⟨C5_random_within_bounds.1 4 2 1 (1/10) (by norm_num) (by norm_num)
      (by norm_num) (by norm_num) (by norm_num) (by norm_num) (by norm_num)
      (by norm_num),
    C5_random_within_bounds.2 ⟨[0, 0, 0, 0]⟩ (by
      intro u hu
      simp only [List.mem_cons, List.not_mem_nil, or_false, or_self] at hu
      subst hu
      exact ⟨le_refl 0, by norm_num⟩)⟩

/-- Response of GET /health (lines 192-195). -/
structure HealthResponse where
  status : String
  code_signature : String
deriving DecidableEq, Repr

/-- Endpoint body of GET /health (lines 184-195): a constant. -/
def health_check : HealthResponse :=
  ⟨"Healthy", CODE_SIGNATURE⟩

/-- Response of GET /model_info (lines 206-211). -/
structure ModelInfoResponse where
  model : String
  version : String
  description : String
  code_signature : String
deriving DecidableEq, Repr

/-- Endpoint body of GET /model_info (lines 198-211): a constant. -/
def model_info : ModelInfoResponse :=
  ⟨"Support Vector Classifier (SVC)", "1.0",
    "Model trained on the Iris dataset for species classification.",
    CODE_SIGNATURE⟩

/-- Python `time.sleep`: raises ValueError on a negative duration,
otherwise blocks the calling thread for the duration and returns. -/
def timeSleep (seconds : ℤ) : Except String Unit :=
  if seconds < 0 then .error "sleep length must be non-negative"
  else .ok ()

/-- Response of GET /simulate_workload on success (lines 231-234). -/
structure MessageResponse where
  message : String
  code_signature : String
deriving DecidableEq, Repr

/-- Endpoint body of GET /simulate_workload (lines 214-237): the query
parameter defaults to 1 when absent; the body sleeps for the requested
duration and then returns the success message; an exception raised by
the sleep is caught and becomes an HTTP 500. -/
def simulate_workload (seconds : Option ℤ) :
    Except HTTPException MessageResponse :=
  let s := seconds.getD 1
  match timeSleep s with
  | .error e => .error ⟨500, "Workload simulation failed: " ++ e⟩
  | .ok _ =>
    .ok ⟨"Successfully simulated workload for " ++ toString s ++ " seconds",
      CODE_SIGNATURE⟩

/-- C6: CODE_SIGNATURE is a single process-wide constant string and every
successful response of every endpoint — predict, predict_batch,
predict_random, simulate_workload, health, model_info — carries exactly
this string, so it is identical across all requests of a running
process. -/
theorem C6_signature_constant :
    (∀ (clf : Classifier) (features : IrisFeatures) (r : PredictResponse),
      predict clf features = .ok r → r.code_signature = CODE_SIGNATURE) ∧
    (∀ (clf : Classifier) (batch : List IrisFeatures) (r : BatchResponse),
      predict_batch clf batch = .ok r → r.code_signature = CODE_SIGNATURE) ∧
    (∀ (clf : Classifier) (s s2 : RandomState) (r : RandomResponse),
      predict_random clf s = (.ok r, s2) → r.code_signature = CODE_SIGNATURE) ∧
    (∀ (seconds : Option ℤ) (r : MessageResponse),
      simulate_workload seconds = .ok r → r.code_signature = CODE_SIGNATURE) ∧
    health_check.code_signature = CODE_SIGNATURE ∧
    model_info.code_signature = CODE_SIGNATURE := by
  refine ⟨?_, ?_, ?_, ?_, rfl, rfl⟩
  · intro clf features r h
    unfold predict at h
    split at h
    · cases h
    · split at h
      · cases h
      · split at h
        · cases h
        · cases h; rfl
  · intro clf batch r h
    unfold predict_batch at h
    split at h
    · cases h
    · split at h
      · cases h
      · cases h; rfl
  · intro clf s s2 r h
    unfold predict_random at h
    dsimp only at h
    split at h
    · exact absurd (congrArg Prod.fst h) (by simp)
    · split at h
      · exact absurd (congrArg Prod.fst h) (by simp)
      · split at h
        · exact absurd (congrArg Prod.fst h) (by simp)
        · split at h
          · exact absurd (congrArg Prod.fst h) (by simp)
          · rw [← Except.ok.inj (congrArg Prod.fst h)]
  · intro seconds r h
    unfold simulate_workload at h
    dsimp only at h
    split at h
    · cases h
    · cases h; rfl

theorem C6_signature_constant_witness :
    (⟨"setosa", CODE_SIGNATURE⟩ : PredictResponse).code_signature =
      CODE_SIGNATURE ∧
    (⟨"Successfully simulated workload for " ++ toString (0 : ℤ) ++ " seconds",
        CODE_SIGNATURE⟩ : MessageResponse).code_signature = CODE_SIGNATURE :=
  ⟨C6_signature_constant.1 clfZero sampleFeatures ⟨"setosa", CODE_SIGNATURE⟩ rfl,
    C6_signature_constant.2.2.2.1 (some 0)
      ⟨"Successfully simulated workload for " ++ toString (0 : ℤ) ++ " seconds",
        CODE_SIGNATURE⟩ rfl⟩

/-- C10: for every negative value of the seconds parameter the endpoint
fails with the HTTP 500 workload error, because the sleep primitive
rejects negative durations; for every non-negative value the sleep
completes and the endpoint returns the success message. -/
theorem C10_negative_seconds_fail (s : ℤ) :
    (s < 0 → simulate_workload (some s) =
      .error ⟨500,
        "Workload simulation failed: sleep length must be non-negative"⟩) ∧
    (0 ≤ s → simulate_workload (some s) =
      .ok ⟨"Successfully simulated workload for " ++ toString s ++ " seconds",
        CODE_SIGNATURE⟩) := by
  constructor
  · intro h
    unfold simulate_workload timeSleep
    simp [h]
  · intro h
    unfold simulate_workload timeSleep
    simp [not_lt.mpr h]

theorem C10_negative_seconds_fail_witness :
    simulate_workload (some (-1)) =
      .error ⟨500,
        "Workload simulation failed: sleep length must be non-negative"⟩ ∧
    simulate_workload (some 0) =
      .ok ⟨"Successfully simulated workload for " ++ toString (0 : ℤ) ++
        " seconds", CODE_SIGNATURE⟩ :=
  ⟨(C10_negative_seconds_fail (-1)).1 (by decide),
    (C10_negative_seconds_fail 0).2 (by decide)⟩

/-- The 422 response FastAPI produces when pydantic rejects the request
body; the endpoint body is never entered in that case. -/
def requestValidationError : HTTPException :=
  ⟨422, "Request validation error"⟩

/-- Full pipeline of POST /predict: FastAPI validates the request body
into an `IrisFeatures` record before the endpoint body runs; a pydantic
failure is returned as the 422 client error. The second component is the
call trace of the external classifier: the list of matrices passed to
it during the request. -/
def handle_predict (clf : Classifier) (sl sw pl pw : ℚ) :
    Except HTTPException PredictResponse × List (List (List ℚ)) :=
  match mkIrisFeatures sl sw pl pw with
  | none => (.error requestValidationError, [])
  | some f => (predict clf f, [[toRow f]])

/-- Pydantic validation of the batch body `BatchIrisFeatures`
(lines 75-82): every element must validate; the first failing element
rejects the whole request. -/
def parseBatch : List (ℚ × ℚ × ℚ × ℚ) → Option (List IrisFeatures)
  | [] => some []
  | r :: rs =>
    match mkIrisFeatures r.1 r.2.1 r.2.2.1 r.2.2.2 with
    | none => none
    | some f =>
      match parseBatch rs with
      | none => none
      | some fs => some (f :: fs)

/-- Full pipeline of POST /predict_batch, with the classifier call trace
as second component. -/
def handle_predict_batch (clf : Classifier) (raws : List (ℚ × ℚ × ℚ × ℚ)) :
    Except HTTPException BatchResponse × List (List (List ℚ)) :=
  match parseBatch raws with
  | none => (.error requestValidationError, [])
  | some fs => (predict_batch clf fs, [fs.map toRow])

theorem parseBatch_eq_none (raws : List (ℚ × ℚ × ℚ × ℚ))
    (r : ℚ × ℚ × ℚ × ℚ) (hr : r ∈ raws)
    (h : mkIrisFeatures r.1 r.2.1 r.2.2.1 r.2.2.2 = none) :
    parseBatch raws = none := by
  induction raws with
  | nil => cases hr
  | cons a as ih =>
    rcases List.mem_cons.mp hr with rfl | hmem
    · simp only [parseBatch, h]
    · cases ha : mkIrisFeatures a.1 a.2.1 a.2.2.1 a.2.2.2 with
      | none => simp only [parseBatch, ha]
      | some f => simp only [parseBatch, ha, ih hmem]

/-- C7: a request to predict or predict_batch in which some field
violates its validation bound is rejected with the 422 client error
before inference: the classifier call trace of such a request is empty —
the external classifier is never invoked. -/
theorem C7_validation_never_reaches_classifier :
    (∀ (clf : Classifier) (sl sw pl pw : ℚ),
      mkIrisFeatures sl sw pl pw = none →
      handle_predict clf sl sw pl pw = (.error requestValidationError, [])) ∧
    (∀ (clf : Classifier) (raws : List (ℚ × ℚ × ℚ × ℚ))
      (r : ℚ × ℚ × ℚ × ℚ), r ∈ raws →
      mkIrisFeatures r.1 r.2.1 r.2.2.1 r.2.2.2 = none →
      handle_predict_batch clf raws =
        (.error requestValidationError, [])) := by
  constructor
  · intro clf sl sw pl pw h
    unfold handle_predict
    simp only [h]
  · intro clf raws r hr h
    unfold handle_predict_batch
    simp only [parseBatch_eq_none raws r hr h]

theorem C7_validation_never_reaches_classifier_witness :
    handle_predict clfZero 0 1 1 1 = (.error requestValidationError, []) ∧
    handle_predict_batch clfZero [(5, 3, 1, 1), (0, 1, 1, 1)] =
      (.error requestValidationError, []) :=
  ⟨C7_validation_never_reaches_classifier.1 clfZero 0 1 1 1
      (by with_unfolding_all rfl),
    C7_validation_never_reaches_classifier.2 clfZero
      [(5, 3, 1, 1), (0, 1, 1, 1)] (0, 1, 1, 1)
      (by simp) (by with_unfolding_all rfl)⟩

/-- Single-threaded cooperative event loop, as used by the server for
`async def` endpoints: ready handlers execute in arrival order, and each
occupies the loop thread, without yielding, for the time its body blocks
synchronously; the handler at position i therefore finishes at the sum
of the blocking durations up to and including its own. -/
def loopFinishTime (blockingDurations : List ℕ) (i : ℕ) : ℕ :=
  (blockingDurations.take (i + 1)).foldl (· + ·) 0

/-- Blocking profile of the GET /simulate_workload body (line 230): the
call `time.sleep(seconds)` is synchronous and the `async def` body never
awaits, so the body occupies the event loop thread for the whole
requested duration. -/
def simulateWorkloadBlocking (seconds : ℕ) : ℕ := seconds

/-- Blocking profile of the GET /health body: it sleeps for nothing and
calls nothing, occupying the loop only negligibly (0 time units). -/
def healthBlocking : ℕ := 0

/-- C8: the claim fails on the code. In the event-loop model, a health
request submitted concurrently with simulate_workload(10) finishes at
time 10 — delayed by the whole artificial sleep — because `time.sleep`
inside the `async def` handler holds the loop thread; with a yielding
delay of the same duration (blocking time 0, as `asyncio.sleep` would
give) the same health request would finish at time 0. -/
theorem C8_sleep_blocks_event_loop :
    loopFinishTime [simulateWorkloadBlocking 10, healthBlocking] 1 = 10 ∧
    loopFinishTime [0, healthBlocking] 1 = 0 :=
  ⟨rfl, rfl⟩

/-- POST /predict as a transformer of the process-wide mutable state. The
only such state the endpoint bodies touch is the random module generator
(the loaded classifier is read-only after startup); the predict body
neither reads nor writes it. -/
def predictS (clf : Classifier) (features : IrisFeatures) (s : RandomState) :
    Except HTTPException PredictResponse × RandomState :=
  (predict clf features, s)

/-- POST /predict_batch as a state transformer; it ignores the random
generator state. -/
def predict_batchS (clf : Classifier) (batch : List IrisFeatures)
    (s : RandomState) : Except HTTPException BatchResponse × RandomState :=
  (predict_batch clf batch, s)

/-- GET /simulate_workload as a state transformer; it ignores the random
generator state. -/
def simulate_workloadS (seconds : Option ℤ) (s : RandomState) :
    Except HTTPException MessageResponse × RandomState :=
  (simulate_workload seconds, s)

/-- GET /health as a state transformer; it ignores the random generator
state. -/
def health_checkS (s : RandomState) : HealthResponse × RandomState :=
  (health_check, s)

/-- GET /model_info as a state transformer; it ignores the random
generator state. -/
def model_infoS (s : RandomState) : ModelInfoResponse × RandomState :=
  (model_info, s)

/-- Draw stream whose first four unit draws are 0 and whose next four
are 1/2: enough for two invocations of predict_random. -/
def rngTwoCalls : RandomState :=
  ⟨[0, 0, 0, 0, 1/2, 1/2, 1/2, 1/2]⟩

/-- C9 counterexample: predict_random is not idempotent. From the process
state `rngTwoCalls`, a first invocation (with the fixed classifier
`clfZero`) returns the features (4, 2, 1, 1/10) and a second, repeated
invocation — same request, same classifier, the process state advanced
only by the first call itself — returns the features (6, 13/4, 4, 13/10):
the two responses differ. -/
theorem C9_predict_random_not_idempotent :
    (predict_random clfZero rngTwoCalls).1 ≠
      (predict_random clfZero ((predict_random clfZero rngTwoCalls).2)).1 := by
  have h1 : (predict_random clfZero rngTwoCalls).1 =
      .ok ⟨⟨4, 2, 1, 1/10⟩, "setosa", CODE_SIGNATURE⟩ := by
    with_unfolding_all rfl
  have h2 : (predict_random clfZero ((predict_random clfZero rngTwoCalls).2)).1 =
      .ok ⟨⟨6, 13/4, 4, 13/10⟩, "setosa", CODE_SIGNATURE⟩ := by
    with_unfolding_all rfl
  rw [h1, h2]
  simp only [ne_eq, Except.ok.injEq, RandomResponse.mk.injEq,
    IrisFeatures.mk.injEq, not_and]
  intro hsl
  exact absurd hsl (by norm_num)

/-- C9 amended: every request handler except predict_random is idempotent
and free of ordering dependencies — for a fixed classifier and fixed
input, repeating the invocation from any process state returns the same
response, the response does not depend on the process state at all, and
the state is left unchanged; predict_random is deterministic as a
function of the random generator state (identical states give identical
responses), but each invocation advances that state, so a repeated
invocation may return a different response (see the counterexample). -/
theorem C9_handlers_idempotent :
    (∀ (clf : Classifier) (features : IrisFeatures) (s t : RandomState),
      (predictS clf features s).1 =
        (predictS clf features ((predictS clf features s).2)).1 ∧
      (predictS clf features s).1 = (predictS clf features t).1 ∧
      (predictS clf features s).2 = s) ∧
    (∀ (clf : Classifier) (batch : List IrisFeatures) (s t : RandomState),
      (predict_batchS clf batch s).1 =
        (predict_batchS clf batch ((predict_batchS clf batch s).2)).1 ∧
      (predict_batchS clf batch s).1 = (predict_batchS clf batch t).1 ∧
      (predict_batchS clf batch s).2 = s) ∧
    (∀ (seconds : Option ℤ) (s t : RandomState),
      (simulate_workloadS seconds s).1 =
        (simulate_workloadS seconds ((simulate_workloadS seconds s).2)).1 ∧
      (simulate_workloadS seconds s).1 = (simulate_workloadS seconds t).1 ∧
      (simulate_workloadS seconds s).2 = s) ∧
    (∀ s t : RandomState,
      (health_checkS s).1 = (health_checkS ((health_checkS s).2)).1 ∧
      (health_checkS s).1 = (health_checkS t).1 ∧
      (health_checkS s).2 = s) ∧
    (∀ s t : RandomState,
      (model_infoS s).1 = (model_infoS ((model_infoS s).2)).1 ∧
      (model_infoS s).1 = (model_infoS t).1 ∧
      (model_infoS s).2 = s) ∧
    (∀ (clf : Classifier) (s1 s2 : RandomState), s1 = s2 →
      (predict_random clf s1).1 = (predict_random clf s2).1) :=
  ⟨fun _ _ _ _ => ⟨rfl, rfl, rfl⟩,
    fun _ _ _ _ => ⟨rfl, rfl, rfl⟩,
    fun _ _ _ => ⟨rfl, rfl, rfl⟩,
    fun _ _ => ⟨rfl, rfl, rfl⟩,
    fun _ _ => ⟨rfl, rfl, rfl⟩,
    fun _ _ _ h => by rw [h]⟩

theorem C9_handlers_idempotent_witness :
    (predict_random clfZero rngTwoCalls).1 =
      (predict_random clfZero rngTwoCalls).1 :=
  C9_handlers_idempotent.2.2.2.2.2 clfZero rngTwoCalls rngTwoCalls rfl

end IrisApp
